import Mathlib

/-!
Verification of the Stroke Secure inference engine: a shallow embedding of
`src/utils/validation.py` and `src/utils/model_predictor.py`.

Python values that can flow into these functions are modelled by `PyVal`
(None, str, int, float); Python floats are modelled as exact rationals,
which is faithful for every constant appearing in the code and in the
properties below (0.75 is a dyadic rational, comparisons in the code are
exact IEEE comparisons).  Python builtins `int(...)` and `float(...)` on
strings are embedded as parsers of decimal literals (optional surrounding
whitespace, optional sign; `float` also accepts a fractional part), which
covers every literal form the application deals with.
-/

namespace Stroke

/-- A Python value as it can reach the validators / predictor:
`None`, a string, an int, or a float (modelled as an exact rational). -/
inductive PyVal where
  | none : PyVal
  | str : String → PyVal
  | int : Int → PyVal
  | float : ℚ → PyVal
deriving DecidableEq

/-- Python truthiness (`bool(x)`), used by the `if not x:` guards:
`None`, `""`, `0` and `0.0` are falsy, everything else is truthy. -/
def pyTruthy : PyVal → Bool
  | PyVal.none => false
  | PyVal.str s => !(s == "")
  | PyVal.int n => !(n == 0)
  | PyVal.float q => !(q == 0)

/-- Strip leading and trailing whitespace from a list of characters
(Python's numeric constructors ignore surrounding whitespace). -/
def stripChars (cs : List Char) : List Char :=
  ((cs.dropWhile Char.isWhitespace).reverse.dropWhile Char.isWhitespace).reverse

/-- Value of a (non-empty) string of decimal digits. -/
def digitsToNat (ds : List Char) : Nat :=
  ds.foldl (fun a c => a * 10 + (c.toNat - 48)) 0

/-- Whether every character is a decimal digit. -/
def allDigits (ds : List Char) : Bool :=
  ds.all Char.isDigit

/-- Unsigned integer literal: one or more digits. -/
def parseNatChars (ds : List Char) : Option Nat :=
  if !ds.isEmpty && allDigits ds then some (digitsToNat ds) else Option.none

/-- Python `int(s)` on a stripped character list: optional sign, then digits;
anything else raises `ValueError`, modelled as `Option.none`. -/
def pyIntOfChars : List Char → Option Int
  | '-' :: ds => (parseNatChars ds).map (fun n => -(n : Int))
  | '+' :: ds => (parseNatChars ds).map (fun n => (n : Int))
  | ds => (parseNatChars ds).map (fun n => (n : Int))

/-- Python `int(s)` on a string. -/
def pyIntOfString (s : String) : Option Int :=
  pyIntOfChars (stripChars s.data)

/-- Unsigned decimal literal: `digits`, `digits.digits`, `digits.` or
`.digits` (at least one digit overall). -/
def parseDecimalChars (cs : List Char) : Option ℚ :=
  let intPart := cs.takeWhile Char.isDigit
  let rest := cs.dropWhile Char.isDigit
  match rest with
  | [] => if intPart.isEmpty then Option.none else some ((digitsToNat intPart : ℚ))
  | '.' :: frac =>
    if allDigits frac && (!intPart.isEmpty || !frac.isEmpty) then
      some ((digitsToNat intPart : ℚ) + (digitsToNat frac : ℚ) / (10 ^ frac.length))
    else Option.none
  | _ => Option.none

/-- Python `float(s)` on a stripped character list: optional sign, then an
unsigned decimal literal; anything else raises `ValueError`, modelled as
`Option.none`. -/
def pyFloatOfChars : List Char → Option ℚ
  | '-' :: ds => (parseDecimalChars ds).map (fun q => -q)
  | '+' :: ds => parseDecimalChars ds
  | ds => parseDecimalChars ds

/-- Python `float(s)` on a string. -/
def pyFloatOfString (s : String) : Option ℚ :=
  pyFloatOfChars (stripChars s.data)

/-- Truncation of a rational toward zero, as Python `int(float)` does. -/
def ratTruncToInt (q : ℚ) : Int :=
  q.num.tdiv (q.den : Int)

/-- Python `int(x)` over a `PyVal`: succeeds on ints, floats (truncating
toward zero) and integer-literal strings; `None` raises `TypeError` and a
non-numeric string raises `ValueError`, both modelled as `Option.none`. -/
def pyInt : PyVal → Option Int
  | PyVal.none => Option.none
  | PyVal.str s => pyIntOfString s
  | PyVal.int n => some n
  | PyVal.float q => some (ratTruncToInt q)

/-- Python `float(x)` over a `PyVal`: succeeds on ints, floats and numeric
strings; `None` raises `TypeError` and a non-numeric string raises
`ValueError`, both modelled as `Option.none`. -/
def pyFloat : PyVal → Option ℚ
  | PyVal.none => Option.none
  | PyVal.str s => pyFloatOfString s
  | PyVal.int n => some ((n : ℚ))
  | PyVal.float q => some q

/-- Boolean substring test: `strContains hay needle` is true when `needle`
occurs contiguously inside `hay` (used to state the message classes the
spec keys on, such as "required" and "number"). -/
def leadsChars : List Char → List Char → Bool
  | [], _ => true
  | _ :: _, [] => false
  | a :: as, b :: bs => a == b && leadsChars as bs

/-- Whether the first character list occurs contiguously in the second. -/
def occursChars (needle : List Char) : List Char → Bool
  | [] => leadsChars needle []
  | b :: bs => leadsChars needle (b :: bs) || occursChars needle bs

/-- `strContains hay needle`: does `needle` occur inside `hay`? -/
def strContains (hay needle : String) : Bool :=
  occursChars needle.data hay.data

/-! ## Field validators (`src/utils/validation.py`) -/

/-- `validate_patient_age` from `src/utils/validation.py`. -/
def validate_patient_age (age : PyVal) : Bool × String × Option Int :=
  if pyTruthy age = false then (false, "Age is required", Option.none)
  else
    match pyInt age with
    | Option.none => (false, "Age must be a valid number", Option.none)
    | some age_int =>
      if age_int < 0 then (false, "Age cannot be negative", Option.none)
      else if age_int > 150 then
        (false, "Age must be a reasonable value (less than 150)", Option.none)
      else (true, "", some age_int)

/-- `validate_avg_glucose_level` from `src/utils/validation.py`. -/
def validate_avg_glucose_level (glucose_level : PyVal) : Bool × String × Option ℚ :=
  if pyTruthy glucose_level = false then
    (false, "Average glucose level is required", Option.none)
  else
    match pyFloat glucose_level with
    | Option.none => (false, "Glucose level must be a valid number", Option.none)
    | some value_float =>
      if value_float < 0 then (false, "Glucose level cannot be negative", Option.none)
      else if value_float > 500 then
        (false, "Glucose level must be a reasonable value (less than 500)", Option.none)
      else (true, "", some value_float)

/-- `validate_bmi` from `src/utils/validation.py`. -/
def validate_bmi (bmi : PyVal) : Bool × String × Option ℚ :=
  if pyTruthy bmi = false then (false, "BMI is required", Option.none)
  else
    match pyFloat bmi with
    | Option.none => (false, "BMI must be a valid number", Option.none)
    | some value_float =>
      if value_float < 0 then (false, "BMI cannot be negative", Option.none)
      else if value_float > 100 then
        (false, "BMI must be a reasonable value (less than 100)", Option.none)
      else (true, "", some value_float)

/-- `validate_hypertension` from `src/utils/validation.py`: the guard is
`hypertension is None or hypertension == ""` (not truthiness), then an
`int(...)` coercion checked against the set 0, 1. -/
def validate_hypertension (hypertension : PyVal) : Bool × String × Option Int :=
  if hypertension = PyVal.none ∨ hypertension = PyVal.str "" then
    (false, "Hypertension value is required", Option.none)
  else
    match pyInt hypertension with
    | Option.none => (false, "Hypertension must be 0 (No) or 1 (Yes)", Option.none)
    | some value_int =>
      if value_int = 0 ∨ value_int = 1 then (true, "", some value_int)
      else (false, "Hypertension must be 0 (No) or 1 (Yes)", Option.none)

/-- Python `x in xs` for a `PyVal` against a list of strings: only an equal
string is a member (ints and floats never equal a str in Python). -/
def pyInStrings (x : PyVal) (xs : List String) : Bool :=
  match x with
  | PyVal.str s => xs.contains s
  | _ => false

/-- `valid_genders` from `validate_gender`. -/
def valid_genders : List String := ["Male", "Female", "Other"]

/-- `validate_gender` from `src/utils/validation.py`. -/
def validate_gender (gender : PyVal) : Bool × String :=
  if pyInStrings gender valid_genders = false then
    (false, "Gender must be one of: " ++ String.intercalate ", " valid_genders)
  else (true, "")

/-- `valid_values` from `validate_ever_married`. -/
def valid_married_values : List String := ["No", "Yes"]

/-- `validate_ever_married` from `src/utils/validation.py`. -/
def validate_ever_married (ever_married : PyVal) : Bool × String :=
  if pyInStrings ever_married valid_married_values = false then
    (false, "Ever married must be one of: " ++ String.intercalate ", " valid_married_values)
  else (true, "")

/-- `valid_types` from `validate_work_type`. -/
def valid_work_types : List String :=
  ["Children", "Govt_job", "Never_worked", "Private", "Self-employed"]

/-- `validate_work_type` from `src/utils/validation.py`. -/
def validate_work_type (work_type : PyVal) : Bool × String :=
  if pyInStrings work_type valid_work_types = false then
    (false, "Work type must be one of: " ++ String.intercalate ", " valid_work_types)
  else (true, "")

/-- `valid_types` from `validate_residence_type`. -/
def valid_residence_types : List String := ["Rural", "Urban"]

/-- `validate_residence_type` from `src/utils/validation.py`. -/
def validate_residence_type (residence_type : PyVal) : Bool × String :=
  if pyInStrings residence_type valid_residence_types = false then
    (false, "Residence type must be one of: " ++ String.intercalate ", " valid_residence_types)
  else (true, "")

/-- `valid_statuses` from `validate_smoking_status`. -/
def valid_smoking_statuses : List String :=
  ["Formerly smoked", "Never smoked", "Smokes", "Unknown"]

/-- `validate_smoking_status` from `src/utils/validation.py`. -/
def validate_smoking_status (smoking_status : PyVal) : Bool × String :=
  if pyInStrings smoking_status valid_smoking_statuses = false then
    (false, "Smoking status must be one of: " ++ String.intercalate ", " valid_smoking_statuses)
  else (true, "")

/-! ## Risk predictor (`src/utils/model_predictor.py`) -/

/-- A feature row: the (ordered) dict `prepare_features` builds and hands to
the pipeline, keys exactly as in the Python source. -/
def FeatureRow : Type := List (String × PyVal)

/-- The opaque scikit-learn pipeline: all the predictor uses of it is
`predict_proba`, the positive-class probability for one feature row. -/
structure Model where
  proba : FeatureRow → ℚ

/-- What sits on disk at a path: a deserializable pipeline, or bytes that
make `joblib.load` raise (with the given exception text). -/
inductive Artifact where
  | pickled : Model → Artifact
  | corrupt : String → Artifact

/-- The filesystem: a map from paths to artifacts (`Option.none` = no file,
so `Path.exists()` is false exactly there). -/
def FileSystem : Type := String → Option Artifact

/-- A raised Python exception: its class and message, plus the chained
`__cause__` message when raised with `from exc`. -/
inductive PyErr where
  | fileNotFoundError : String → Option String → PyErr
  | runtimeError : String → Option String → PyErr
deriving DecidableEq

/-- The exception class of a raised error. -/
def PyErr.kind : PyErr → String
  | PyErr.fileNotFoundError _ _ => "FileNotFoundError"
  | PyErr.runtimeError _ _ => "RuntimeError"

/-- The chained cause (`raise ... from exc`) of a raised error. -/
def PyErr.cause : PyErr → Option String
  | PyErr.fileNotFoundError _ c => c
  | PyErr.runtimeError _ c => c

/-- The exception class of the outcome of a fallible call. -/
def errKind {α : Type} : Except PyErr α → Option String
  | Except.error e => some e.kind
  | Except.ok _ => Option.none

/-- `MODEL_PATH` from `src/utils/model_predictor.py`. -/
def MODEL_PATH : String := "modeltraining/stroke_model.pkl"

/-- `PREDICTION_THRESHOLD` from `src/utils/model_predictor.py` (0.75). -/
def PREDICTION_THRESHOLD : ℚ := 3 / 4

/-- The state of a `StrokePredictor` instance: `model_path`, `threshold`
and the lazily cached `model` (`None` until loaded). -/
structure StrokePredictor where
  model_path : String
  threshold : ℚ
  model : Option Model

/-- `StrokePredictor.__init__` with default arguments. -/
def StrokePredictor.init : StrokePredictor :=
  StrokePredictor.mk MODEL_PATH PREDICTION_THRESHOLD Option.none

/-- `StrokePredictor.load_model`: returns immediately when a model is
cached; raises `FileNotFoundError` naming the path when the file is
missing; and when `joblib.load` raises, re-raises a `FileNotFoundError`
whose message embeds the cause, chained with `from exc`. -/
def load_model (fs : FileSystem) (p : StrokePredictor) : Except PyErr StrokePredictor :=
  match p.model with
  | some _ => Except.ok p
  | Option.none =>
    match fs p.model_path with
    | Option.none =>
      Except.error (PyErr.fileNotFoundError
        ("Model file not found at " ++ p.model_path ++
          ". Please export stroke_model.pkl from the training notebook into modeltraining/.")
        Option.none)
    | some (Artifact.corrupt exc) =>
      Except.error (PyErr.fileNotFoundError ("Error loading model: " ++ exc) (some exc))
    | some (Artifact.pickled m) =>
      Except.ok (StrokePredictor.mk p.model_path p.threshold (some m))

/-- `StrokePredictor._as_float`: `float(value)`, or the default when that
raises `TypeError` or `ValueError`. -/
def as_float (value : PyVal) (default : ℚ) : ℚ :=
  (pyFloat value).getD default

/-- `StrokePredictor._as_int`: `int(value)`, or the default when that
raises `TypeError` or `ValueError`. -/
def as_int (value : PyVal) (default : Int) : Int :=
  (pyInt value).getD default

/-- A stored patient document, as a map of field names to values. -/
def PatientRec : Type := List (String × PyVal)

/-- Python `dict.get(k)`: the stored value, or `None` when absent. -/
def dictGet (d : PatientRec) (k : String) : PyVal :=
  match List.lookup k d with
  | some v => v
  | Option.none => PyVal.none

/-- `StrokePredictor.prepare_features`: the payload dict built from a
patient document, keys and order exactly as in the Python source
(including the capitalized `Residence_type` key fed from the record's
lowercase `residence_type` field). -/
def prepare_features (patient_data : PatientRec) : FeatureRow :=
  [("gender", dictGet patient_data "gender"),
   ("age", PyVal.float (as_float (dictGet patient_data "age") 0)),
   ("hypertension", PyVal.int (as_int (dictGet patient_data "hypertension") 0)),
   ("ever_married", dictGet patient_data "ever_married"),
   ("work_type", dictGet patient_data "work_type"),
   ("Residence_type", dictGet patient_data "residence_type"),
   ("avg_glucose_level", PyVal.float (as_float (dictGet patient_data "avg_glucose_level") 0)),
   ("bmi", PyVal.float (as_float (dictGet patient_data "bmi") 0)),
   ("smoking_status", dictGet patient_data "smoking_status")]

/-- `StrokePredictor.predict`: lazy-load, build features, take the
positive-class probability, and threshold it with
`prediction = 1 if probability >= self.threshold else 0`.  The returned
triple carries the (possibly updated) predictor state alongside the
`(prediction, probability)` pair the Python method returns. -/
def predict (fs : FileSystem) (p : StrokePredictor) (patient_data : PatientRec) :
    Except PyErr (StrokePredictor × Nat × ℚ) :=
  match load_model fs p with
  | Except.error e => Except.error e
  | Except.ok loaded =>
    match loaded.model with
    | Option.none =>
      Except.error (PyErr.runtimeError "Loaded model does not expose predict_proba"
        (some "AttributeError"))
    | some m =>
      let probability := m.proba (prepare_features patient_data)
      let prediction : Nat := if probability ≥ loaded.threshold then 1 else 0
      Except.ok (loaded, prediction, probability)

/-! ## Interleaving model for concurrent first use (claim C9)

Two threads each run `load_model` on the shared predictor state.  The
Python method is the naive check-then-load: the `if self.model is not
None: return` test and the `joblib.load` + assignment are separate atomic
actions with no lock between them. -/

/-- Program counter of one thread running `load_model`: before the cached
check, past a check that observed no cached model (about to read storage),
or returned. -/
inductive TPC where
  | ready : TPC
  | willLoad : TPC
  | done : TPC
deriving DecidableEq

/-- Shared state plus the two thread program counters: the cached model,
the number of storage reads so far, and each thread's position. -/
structure ConcState where
  model : Option Model
  reads : Nat
  pcA : TPC
  pcB : TPC

/-- One atomic step of a thread running `load_model` against the shared
cell, where storage holds the good artifact `art`: the `ready` step is the
`if self.model is not None` check, the `willLoad` step is the storage read
(`joblib.load`) plus the assignment to `self.model`. -/
def threadStep (art : Model) (pc : TPC) (m : Option Model) (r : Nat) :
    TPC × Option Model × Nat :=
  match pc, m with
  | TPC.ready, some mm => (TPC.done, some mm, r)
  | TPC.ready, Option.none => (TPC.willLoad, Option.none, r)
  | TPC.willLoad, _ => (TPC.done, some art, r + 1)
  | TPC.done, mm => (TPC.done, mm, r)

/-- Run a schedule (`true` = thread A moves, `false` = thread B moves). -/
def runSched (art : Model) : List Bool → ConcState → ConcState
  | [], s => s
  | t :: rest, s =>
    if t then
      let next := threadStep art s.pcA s.model s.reads
      runSched art rest (ConcState.mk next.2.1 next.2.2 next.1 s.pcB)
    else
      let next := threadStep art s.pcB s.model s.reads
      runSched art rest (ConcState.mk next.2.1 next.2.2 s.pcA next.1)

/-- Both threads at the start, nothing cached, no reads yet. -/
def concInit : ConcState :=
  ConcState.mk Option.none 0 TPC.ready TPC.ready

/-! ## Shared concrete fixtures -/

/-- A pipeline stub whose probability is 0 on every row. -/
def stubModel : Model :=
  Model.mk (fun _ => 0)

/-- A filesystem with no files at all. -/
def fsMissing : FileSystem :=
  fun _ => Option.none

/-- A filesystem holding undeserializable bytes at the default model path
(`joblib.load` raises "invalid load key"). -/
def fsCorrupt : FileSystem :=
  fun p => if p = MODEL_PATH then some (Artifact.corrupt "invalid load key") else Option.none

/-! ## Helper lemmas -/

/-- A list is a leading segment of itself followed by anything. -/
theorem leadsChars_append (n b : List Char) : leadsChars n (n ++ b) = true := by
  induction n with
  | nil => rfl
  | cons c cs ih => simp [leadsChars, ih]

/-- A list occurs in any list that sandwiches it. -/
theorem occursChars_append (a n b : List Char) : occursChars n (a ++ n ++ b) = true := by
  induction a with
  | nil =>
    cases n with
    | nil => cases b <;> simp [occursChars, leadsChars]
    | cons c cs =>
      simp only [List.nil_append, List.cons_append, occursChars, Bool.or_eq_true]
      exact Or.inl (leadsChars_append (c :: cs) b)
  | cons c rest ih =>
    simp only [List.cons_append, occursChars, Bool.or_eq_true]
    right
    simpa [List.append_assoc] using ih

/-- A string contains any substring it was concatenated around. -/
theorem strContains_append_middle (x p y : String) :
    strContains (x ++ p ++ y) p = true := by
  have h : (x ++ p ++ y).data = x.data ++ p.data ++ y.data := by
    simp [String.data_append]
  rw [strContains, h]
  exact occursChars_append x.data p.data y.data

/-- Membership of a string `PyVal` in a string list is list membership. -/
theorem pyInStrings_str_iff (s : String) (xs : List String) :
    pyInStrings (PyVal.str s) xs = true ↔ s ∈ xs := by
  simp [pyInStrings]

/-- The enum-validator body returns `(true, "")` on domain members. -/
theorem enumCheckTrue (s : String) (xs : List String) (m : String) (h : s ∈ xs) :
    (if pyInStrings (PyVal.str s) xs = false then ((false : Bool), m) else ((true : Bool), "")) =
      (true, "") := by
  have hb : pyInStrings (PyVal.str s) xs = true := (pyInStrings_str_iff s xs).mpr h
  simp [hb]

/-- The enum-validator body returns `(false, message)` outside the domain. -/
theorem enumCheckFalse (s : String) (xs : List String) (m : String) (h : ¬ s ∈ xs) :
    (if pyInStrings (PyVal.str s) xs = false then ((false : Bool), m) else ((true : Bool), "")) =
      (false, m) := by
  have hb : pyInStrings (PyVal.str s) xs = false := by
    simp [pyInStrings, h]
  simp [hb]

/-! ## Claim theorems -/

/-- C1, counterexample: the claim asserts two distinct error kinds, but
`load_model` raises `FileNotFoundError` on both paths — at the default
model path, the error raised for an existing-but-undeserializable artifact
has the same exception class as the error raised for a missing artifact. -/
theorem c1_load_error_same_kind_cex :
    errKind (load_model fsMissing StrokePredictor.init) = some "FileNotFoundError" ∧
    errKind (load_model fsCorrupt StrokePredictor.init) = some "FileNotFoundError" ∧
    errKind (load_model fsCorrupt StrokePredictor.init) =
      errKind (load_model fsMissing StrokePredictor.init) :=
  ⟨rfl, rfl, rfl⟩

/-- C1, amended: with no model cached, `load_model` on a missing file
fails with a `FileNotFoundError` whose message names the attempted path,
and on an undeserializable file fails with an error of the same
`FileNotFoundError` kind whose message is "Error loading model: " plus the
underlying cause, and which chains that cause (`from exc`). -/
theorem c1_load_model_error_paths (fs : FileSystem) (p : StrokePredictor) (exc : String)
    (hm : p.model = Option.none) :
    (fs p.model_path = Option.none →
      load_model fs p = Except.error (PyErr.fileNotFoundError
        ("Model file not found at " ++ p.model_path ++
          ". Please export stroke_model.pkl from the training notebook into modeltraining/.")
        Option.none) ∧
      strContains
        ("Model file not found at " ++ p.model_path ++
          ". Please export stroke_model.pkl from the training notebook into modeltraining/.")
        p.model_path = true) ∧
    (fs p.model_path = some (Artifact.corrupt exc) →
      load_model fs p = Except.error
        (PyErr.fileNotFoundError ("Error loading model: " ++ exc) (some exc)) ∧
      strContains ("Error loading model: " ++ exc) exc = true) := by
  constructor
  · intro hfs
    constructor
    · simp [load_model, hm, hfs]
    · exact strContains_append_middle "Model file not found at " p.model_path
        ". Please export stroke_model.pkl from the training notebook into modeltraining/."
  · intro hfs
    constructor
    · simp [load_model, hm, hfs]
    · have h := strContains_append_middle "Error loading model: " exc ""
      simpa using h

/-- C1, witness: the two failure shapes at the default path. -/
theorem c1_load_model_error_paths_witness :
    load_model fsMissing StrokePredictor.init = Except.error (PyErr.fileNotFoundError
      "Model file not found at modeltraining/stroke_model.pkl. Please export stroke_model.pkl from the training notebook into modeltraining/."
      Option.none) ∧
    load_model fsCorrupt StrokePredictor.init = Except.error
      (PyErr.fileNotFoundError "Error loading model: invalid load key"
        (some "invalid load key")) := by
  constructor
  · exact ((c1_load_model_error_paths fsMissing StrokePredictor.init "" rfl).1 rfl).1
  · exact ((c1_load_model_error_paths fsCorrupt StrokePredictor.init "invalid load key"
      rfl).2 rfl).1

/-- C2 (confirmed): with the pipeline cached and the default threshold,
`predict` returns `prediction = 1 if probability >= threshold else 0` via
the exact closed-form comparison, together with the probability itself;
probability exactly 3/4 lands on the positive side of the comparison and
0.7499999 on the negative side. -/
theorem c2_threshold_decision (fs : FileSystem) (path : String) (m : Model)
    (d : PatientRec) (p : ℚ)
    (hp : m.proba (prepare_features d) = p) (h0 : 0 ≤ p) (h1 : p ≤ 1) :
    predict fs (StrokePredictor.mk path PREDICTION_THRESHOLD (some m)) d =
      Except.ok (StrokePredictor.mk path PREDICTION_THRESHOLD (some m),
        (if p ≥ PREDICTION_THRESHOLD then 1 else 0), p) ∧
    ((3 : ℚ) / 4 ≥ PREDICTION_THRESHOLD ∧
      ¬ ((7499999 : ℚ) / 10000000 ≥ PREDICTION_THRESHOLD)) := by
  constructor
  · simp [predict, load_model, hp]
  · norm_num [PREDICTION_THRESHOLD]

/-- C2, witness: a stub pipeline returning probability 0 yields the
verdict `(0, 0)` on the empty record. -/
theorem c2_threshold_decision_witness :
    predict fsMissing (StrokePredictor.mk MODEL_PATH PREDICTION_THRESHOLD (some stubModel)) [] =
      Except.ok (StrokePredictor.mk MODEL_PATH PREDICTION_THRESHOLD (some stubModel), 0, 0) := by
  have h := (c2_threshold_decision fsMissing MODEL_PATH stubModel [] 0 rfl le_rfl
    (by norm_num)).1
  have e : (if (0 : ℚ) ≥ PREDICTION_THRESHOLD then (1 : Nat) else 0) = 0 := by
    norm_num [PREDICTION_THRESHOLD]
  rw [e] at h
  exact h

/-- C3 (confirmed): for every record, each numeric field that is
individually absent or unparsable is mapped by `prepare_features` to its
own type-appropriate default (age 0.0, hypertension 0, avg_glucose_level
0.0, bmi 0.0), independently of the other fields; and `predict` with a
cached pipeline returns a verdict on every record — complete or not —
instead of raising. -/
theorem c3_missing_fields_default (d : PatientRec) (fs : FileSystem) (path : String)
    (m : Model) :
    (pyFloat (dictGet d "age") = Option.none →
      List.lookup "age" (prepare_features d) = some (PyVal.float 0)) ∧
    (pyInt (dictGet d "hypertension") = Option.none →
      List.lookup "hypertension" (prepare_features d) = some (PyVal.int 0)) ∧
    (pyFloat (dictGet d "avg_glucose_level") = Option.none →
      List.lookup "avg_glucose_level" (prepare_features d) = some (PyVal.float 0)) ∧
    (pyFloat (dictGet d "bmi") = Option.none →
      List.lookup "bmi" (prepare_features d) = some (PyVal.float 0)) ∧
    predict fs (StrokePredictor.mk path PREDICTION_THRESHOLD (some m)) d =
      Except.ok (StrokePredictor.mk path PREDICTION_THRESHOLD (some m),
        (if m.proba (prepare_features d) ≥ PREDICTION_THRESHOLD then 1 else 0),
        m.proba (prepare_features d)) := by
  refine ⟨?_, ?_, ?_, ?_, ?_⟩
  · intro hage
    simp [prepare_features, as_float, hage, List.lookup]
  · intro hhyp
    simp [prepare_features, as_int, hhyp, List.lookup]
  · intro hglu
    simp [prepare_features, as_float, hglu, List.lookup]
  · intro hbmi
    simp [prepare_features, as_float, hbmi, List.lookup]
  · simp [predict, load_model]

/-- C3, witness: the claim's own exemplar — a record carrying only a
parsable age "42" and missing bmi — gets the bmi default while the age
parses to 42, and still yields a verdict. -/
theorem c3_missing_fields_default_witness :
    List.lookup "bmi" (prepare_features [("age", PyVal.str "42")]) = some (PyVal.float 0) ∧
    List.lookup "age" (prepare_features [("age", PyVal.str "42")]) = some (PyVal.float 42) ∧
    predict fsMissing (StrokePredictor.mk MODEL_PATH PREDICTION_THRESHOLD (some stubModel))
        [("age", PyVal.str "42")] =
      Except.ok (StrokePredictor.mk MODEL_PATH PREDICTION_THRESHOLD (some stubModel), 0, 0) := by
  have h := c3_missing_fields_default [("age", PyVal.str "42")] fsMissing MODEL_PATH stubModel
  refine ⟨h.2.2.2.1 (by decide), by decide, ?_⟩
  have h5 := h.2.2.2.2
  have e : (if stubModel.proba (prepare_features [("age", PyVal.str "42")]) ≥
      PREDICTION_THRESHOLD then (1 : Nat) else 0) = 0 := by
    norm_num [stubModel, PREDICTION_THRESHOLD]
  rw [e] at h5
  exact h5

/-- C4 (confirmed): `validate_patient_age` on the quoted inputs: "25" is
valid with 25; "" fails with a "required" message and no value; "abc"
fails with a "number" message; "-5" with a "negative" message; "200" with
a message naming the bound 150; "150" is valid with 150 (inclusive upper
bound); "151" fails with no value. -/
theorem c4_validate_patient_age_cases :
    validate_patient_age (PyVal.str "25") = (true, "", some 25) ∧
    ((validate_patient_age (PyVal.str "")).1 = false ∧
      strContains (validate_patient_age (PyVal.str "")).2.1 "required" = true ∧
      (validate_patient_age (PyVal.str "")).2.2 = Option.none) ∧
    ((validate_patient_age (PyVal.str "abc")).1 = false ∧
      strContains (validate_patient_age (PyVal.str "abc")).2.1 "number" = true ∧
      (validate_patient_age (PyVal.str "abc")).2.2 = Option.none) ∧
    ((validate_patient_age (PyVal.str "-5")).1 = false ∧
      strContains (validate_patient_age (PyVal.str "-5")).2.1 "negative" = true ∧
      (validate_patient_age (PyVal.str "-5")).2.2 = Option.none) ∧
    ((validate_patient_age (PyVal.str "200")).1 = false ∧
      strContains (validate_patient_age (PyVal.str "200")).2.1 "150" = true ∧
      (validate_patient_age (PyVal.str "200")).2.2 = Option.none) ∧
    validate_patient_age (PyVal.str "150") = (true, "", some 150) ∧
    ((validate_patient_age (PyVal.str "151")).1 = false ∧
      (validate_patient_age (PyVal.str "151")).2.2 = Option.none) := by
  decide

/-- C5, counterexample: the number 0 (as a Python float or int) has
numeric value 0, inside the valid range of both validators, yet both
reject it — its truthiness guard fires before parsing. -/
theorem c5_zero_number_rejected_cex :
    pyFloat (PyVal.float 0) = some 0 ∧
    pyFloat (PyVal.int 0) = some 0 ∧
    (validate_bmi (PyVal.float 0)).1 = false ∧
    (validate_avg_glucose_level (PyVal.float 0)).1 = false ∧
    (validate_bmi (PyVal.int 0)).1 = false ∧
    (validate_avg_glucose_level (PyVal.int 0)).1 = false := by
  decide

/-- C5, amended: for every truthy input (so in particular every non-empty
string, but not the falsy numbers 0 and 0.0): a parsed value of exactly 0
or the maximum (100 for bmi, 500 for glucose) is valid with the parsed
float returned; a parsed value strictly above the maximum is invalid; and
a parse failure is invalid with a message containing "number". -/
theorem c5_boundary_values (x : PyVal) (v : ℚ) (ht : pyTruthy x = true) :
    (pyFloat x = some v → (v = 0 ∨ v = 100) → validate_bmi x = (true, "", some v)) ∧
    (pyFloat x = some v → 100 < v →
      validate_bmi x = (false, "BMI must be a reasonable value (less than 100)", Option.none)) ∧
    (pyFloat x = Option.none →
      validate_bmi x = (false, "BMI must be a valid number", Option.none)) ∧
    (pyFloat x = some v → (v = 0 ∨ v = 500) →
      validate_avg_glucose_level x = (true, "", some v)) ∧
    (pyFloat x = some v → 500 < v →
      validate_avg_glucose_level x =
        (false, "Glucose level must be a reasonable value (less than 500)", Option.none)) ∧
    (pyFloat x = Option.none →
      validate_avg_glucose_level x =
        (false, "Glucose level must be a valid number", Option.none)) ∧
    strContains "BMI must be a valid number" "number" = true ∧
    strContains "Glucose level must be a valid number" "number" = true := by
  refine ⟨?_, ?_, ?_, ?_, ?_, ?_, by decide, by decide⟩
  · intro hp hv
    rcases hv with rfl | rfl <;> norm_num [validate_bmi, ht, hp]
  · intro hp hv
    have h1 : ¬ v < 0 := by linarith
    simp [validate_bmi, ht, hp, h1, hv]
  · intro hp
    simp [validate_bmi, ht, hp]
  · intro hp hv
    rcases hv with rfl | rfl <;> norm_num [validate_avg_glucose_level, ht, hp]
  · intro hp hv
    have h1 : ¬ v < 0 := by linarith
    simp [validate_avg_glucose_level, ht, hp, h1, hv]
  · intro hp
    simp [validate_avg_glucose_level, ht, hp]

/-- C5, witness: string boundaries "0", "100", "500" are accepted; a value
just above the maximum and a non-numeric string are rejected. -/
theorem c5_boundary_values_witness :
    validate_bmi (PyVal.str "100") = (true, "", some 100) ∧
    validate_bmi (PyVal.str "0") = (true, "", some 0) ∧
    validate_avg_glucose_level (PyVal.str "500") = (true, "", some 500) ∧
    validate_bmi (PyVal.str "101") =
      (false, "BMI must be a reasonable value (less than 100)", Option.none) ∧
    validate_bmi (PyVal.str "abc") =
      (false, "BMI must be a valid number", Option.none) := by
  refine ⟨?_, ?_, ?_, ?_, ?_⟩
  · exact (c5_boundary_values (PyVal.str "100") 100 (by decide)).1 (by decide) (Or.inr rfl)
  · exact (c5_boundary_values (PyVal.str "0") 0 (by decide)).1 (by decide) (Or.inl rfl)
  · exact (c5_boundary_values (PyVal.str "500") 500 (by decide)).2.2.2.1 (by decide)
      (Or.inr rfl)
  · exact (c5_boundary_values (PyVal.str "101") 101 (by decide)).2.1
      (by decide) (by norm_num)
  · exact (c5_boundary_values (PyVal.str "abc") 0 (by decide)).2.2.1 (by decide)

/-- C6 (confirmed): each enum validator returns `(true, "")` exactly on
string-equal members of its fixed domain, and on any other string returns
`false` with the message that enumerates the whole domain joined by
", ". -/
theorem c6_enum_domains (s : String) :
    ((validate_gender (PyVal.str s) = (true, "") ↔ s ∈ valid_genders) ∧
     (¬ s ∈ valid_genders → validate_gender (PyVal.str s) =
       (false, "Gender must be one of: Male, Female, Other"))) ∧
    ((validate_ever_married (PyVal.str s) = (true, "") ↔ s ∈ valid_married_values) ∧
     (¬ s ∈ valid_married_values → validate_ever_married (PyVal.str s) =
       (false, "Ever married must be one of: No, Yes"))) ∧
    ((validate_work_type (PyVal.str s) = (true, "") ↔ s ∈ valid_work_types) ∧
     (¬ s ∈ valid_work_types → validate_work_type (PyVal.str s) =
       (false,
        "Work type must be one of: Children, Govt_job, Never_worked, Private, Self-employed"))) ∧
    ((validate_residence_type (PyVal.str s) = (true, "") ↔ s ∈ valid_residence_types) ∧
     (¬ s ∈ valid_residence_types → validate_residence_type (PyVal.str s) =
       (false, "Residence type must be one of: Rural, Urban"))) ∧
    ((validate_smoking_status (PyVal.str s) = (true, "") ↔ s ∈ valid_smoking_statuses) ∧
     (¬ s ∈ valid_smoking_statuses → validate_smoking_status (PyVal.str s) =
       (false,
        "Smoking status must be one of: Formerly smoked, Never smoked, Smokes, Unknown"))) := by
  have hgender : (validate_gender (PyVal.str s) = (true, "") ↔ s ∈ valid_genders) ∧
      (¬ s ∈ valid_genders → validate_gender (PyVal.str s) =
        (false, "Gender must be one of: Male, Female, Other")) := by
    constructor
    · constructor
      · intro h
        by_contra hm
        rw [show validate_gender (PyVal.str s) =
            (if pyInStrings (PyVal.str s) valid_genders = false then
              ((false : Bool), "Gender must be one of: Male, Female, Other")
            else ((true : Bool), "")) from rfl,
          enumCheckFalse s valid_genders _ hm] at h
        simp at h
      · intro hm
        exact enumCheckTrue s valid_genders _ hm
    · intro hm
      exact enumCheckFalse s valid_genders _ hm
  have hmarried : (validate_ever_married (PyVal.str s) = (true, "") ↔
      s ∈ valid_married_values) ∧
      (¬ s ∈ valid_married_values → validate_ever_married (PyVal.str s) =
        (false, "Ever married must be one of: No, Yes")) := by
    constructor
    · constructor
      · intro h
        by_contra hm
        rw [show validate_ever_married (PyVal.str s) =
            (if pyInStrings (PyVal.str s) valid_married_values = false then
              ((false : Bool), "Ever married must be one of: No, Yes")
            else ((true : Bool), "")) from rfl,
          enumCheckFalse s valid_married_values _ hm] at h
        simp at h
      · intro hm
        exact enumCheckTrue s valid_married_values _ hm
    · intro hm
      exact enumCheckFalse s valid_married_values _ hm
  have hwork : (validate_work_type (PyVal.str s) = (true, "") ↔ s ∈ valid_work_types) ∧
      (¬ s ∈ valid_work_types → validate_work_type (PyVal.str s) =
        (false,
         "Work type must be one of: Children, Govt_job, Never_worked, Private, Self-employed")) := by
    constructor
    · constructor
      · intro h
        by_contra hm
        rw [show validate_work_type (PyVal.str s) =
            (if pyInStrings (PyVal.str s) valid_work_types = false then
              ((false : Bool),
               "Work type must be one of: Children, Govt_job, Never_worked, Private, Self-employed")
            else ((true : Bool), "")) from rfl,
          enumCheckFalse s valid_work_types _ hm] at h
        simp at h
      · intro hm
        exact enumCheckTrue s valid_work_types _ hm
    · intro hm
      exact enumCheckFalse s valid_work_types _ hm
  have hres : (validate_residence_type (PyVal.str s) = (true, "") ↔
      s ∈ valid_residence_types) ∧
      (¬ s ∈ valid_residence_types → validate_residence_type (PyVal.str s) =
        (false, "Residence type must be one of: Rural, Urban")) := by
    constructor
    · constructor
      · intro h
        by_contra hm
        rw [show validate_residence_type (PyVal.str s) =
            (if pyInStrings (PyVal.str s) valid_residence_types = false then
              ((false : Bool), "Residence type must be one of: Rural, Urban")
            else ((true : Bool), "")) from rfl,
          enumCheckFalse s valid_residence_types _ hm] at h
        simp at h
      · intro hm
        exact enumCheckTrue s valid_residence_types _ hm
    · intro hm
      exact enumCheckFalse s valid_residence_types _ hm
  have hsmoke : (validate_smoking_status (PyVal.str s) = (true, "") ↔
      s ∈ valid_smoking_statuses) ∧
      (¬ s ∈ valid_smoking_statuses → validate_smoking_status (PyVal.str s) =
        (false,
         "Smoking status must be one of: Formerly smoked, Never smoked, Smokes, Unknown")) := by
    constructor
    · constructor
      · intro h
        by_contra hm
        rw [show validate_smoking_status (PyVal.str s) =
            (if pyInStrings (PyVal.str s) valid_smoking_statuses = false then
              ((false : Bool),
               "Smoking status must be one of: Formerly smoked, Never smoked, Smokes, Unknown")
            else ((true : Bool), "")) from rfl,
          enumCheckFalse s valid_smoking_statuses _ hm] at h
        simp at h
      · intro hm
        exact enumCheckTrue s valid_smoking_statuses _ hm
    · intro hm
      exact enumCheckFalse s valid_smoking_statuses _ hm
  exact ⟨hgender, hmarried, hwork, hres, hsmoke⟩

/-- C6, witness: a member and a non-member for two of the validators. -/
theorem c6_enum_domains_witness :
    validate_gender (PyVal.str "Male") = (true, "") ∧
    validate_gender (PyVal.str "Martian") =
      (false, "Gender must be one of: Male, Female, Other") ∧
    validate_smoking_status (PyVal.str "Unknown") = (true, "") ∧
    validate_smoking_status (PyVal.str "Vapes") =
      (false, "Smoking status must be one of: Formerly smoked, Never smoked, Smokes, Unknown") := by
  refine ⟨?_, ?_, ?_, ?_⟩
  · exact (c6_enum_domains "Male").1.1.mpr (by decide)
  · exact (c6_enum_domains "Martian").1.2 (by decide)
  · exact (c6_enum_domains "Unknown").2.2.2.2.1.mpr (by decide)
  · exact (c6_enum_domains "Vapes").2.2.2.2.2 (by decide)

/-- C7 (confirmed): `validate_hypertension` rejects `None` and `""` with a
"required" message; on any other value it accepts exactly when the integer
coercion succeeds with 0 or 1 (returning it), and otherwise fails with the
single message "Hypertension must be 0 (No) or 1 (Yes)", both for integer
coercions outside the set and for coercion failures. -/
theorem c7_hypertension_domain (x : PyVal) :
    ((x = PyVal.none ∨ x = PyVal.str "") →
      validate_hypertension x = (false, "Hypertension value is required", Option.none) ∧
      strContains "Hypertension value is required" "required" = true) ∧
    (¬ (x = PyVal.none ∨ x = PyVal.str "") →
      (∀ v : Int, pyInt x = some v → (v = 0 ∨ v = 1) →
        validate_hypertension x = (true, "", some v)) ∧
      (∀ v : Int, pyInt x = some v → ¬ v = 0 → ¬ v = 1 →
        validate_hypertension x =
          (false, "Hypertension must be 0 (No) or 1 (Yes)", Option.none)) ∧
      (pyInt x = Option.none →
        validate_hypertension x =
          (false, "Hypertension must be 0 (No) or 1 (Yes)", Option.none))) := by
  constructor
  · intro h
    constructor
    · simp only [validate_hypertension]
      rw [if_pos h]
    · decide
  · intro h
    refine ⟨?_, ?_, ?_⟩
    · intro v hv h01
      simp [validate_hypertension, h, hv, h01]
    · intro v hv h0 h1
      simp [validate_hypertension, h, hv, h0, h1]
    · intro hv
      simp [validate_hypertension, h, hv]

/-- C7, witness: "1" accepted as 1, "5" and "abc" rejected with the 0/1
message, `None` rejected as required. -/
theorem c7_hypertension_domain_witness :
    validate_hypertension (PyVal.str "1") = (true, "", some 1) ∧
    validate_hypertension (PyVal.str "5") =
      (false, "Hypertension must be 0 (No) or 1 (Yes)", Option.none) ∧
    validate_hypertension (PyVal.str "abc") =
      (false, "Hypertension must be 0 (No) or 1 (Yes)", Option.none) ∧
    validate_hypertension PyVal.none =
      (false, "Hypertension value is required", Option.none) := by
  refine ⟨?_, ?_, ?_, ?_⟩
  · exact ((c7_hypertension_domain (PyVal.str "1")).2 (by decide)).1 1 (by decide)
      (Or.inr rfl)
  · exact ((c7_hypertension_domain (PyVal.str "5")).2 (by decide)).2.1 5 (by decide)
      (by decide) (by decide)
  · exact ((c7_hypertension_domain (PyVal.str "abc")).2 (by decide)).2.2 (by decide)
  · exact ((c7_hypertension_domain PyVal.none).1 (Or.inl rfl)).1

/-- C8 (confirmed): for every record, `prepare_features` emits the value
read from the lowercase `residence_type` field under the capitalized
schema key `Residence_type`; no lowercase `residence_type` key appears in
the feature row, whose key sequence is exactly the trained pipeline's
schema. -/
theorem c8_residence_schema_key (d : PatientRec) :
    List.lookup "Residence_type" (prepare_features d) = some (dictGet d "residence_type") ∧
    List.lookup "residence_type" (prepare_features d) = Option.none ∧
    (prepare_features d).map Prod.fst =
      ["gender", "age", "hypertension", "ever_married", "work_type", "Residence_type",
       "avg_glucose_level", "bmi", "smoking_status"] := by
  refine ⟨?_, ?_, rfl⟩ <;> simp [prepare_features, List.lookup]

/-- C8, witness: on a concrete record the Rural value surfaces only under
the capitalized key. -/
theorem c8_residence_schema_key_witness :
    List.lookup "Residence_type" (prepare_features [("residence_type", PyVal.str "Rural")]) =
      some (PyVal.str "Rural") ∧
    List.lookup "residence_type" (prepare_features [("residence_type", PyVal.str "Rural")]) =
      Option.none := by
  have h := c8_residence_schema_key [("residence_type", PyVal.str "Rural")]
  exact ⟨h.1.trans rfl, h.2.1⟩

/-- C9, counterexample: the check-then-load in `load_model` is not
mutually excluded; under the interleaving where both threads pass the
cached-model check before either reads storage, the artifact is read from
storage twice — not at most once as claimed — even though both first-use
calls complete. -/
theorem c9_single_read_cex :
    (runSched stubModel [true, false, true, false] concInit).reads = 2 ∧
    ¬ (runSched stubModel [true, false, true, false] concInit).reads ≤ 1 ∧
    (runSched stubModel [true, false, true, false] concInit).pcA = TPC.done ∧
    (runSched stubModel [true, false, true, false] concInit).pcB = TPC.done := by
  exact ⟨rfl, by decide, rfl, rfl⟩

/-- C9, amended: the lazy load is unguarded check-then-load; a serialized
execution of two first-use calls reads storage once and caches the model,
but an interleaved execution of the same two calls reads storage twice;
in both cases each caller completes and ends with the artifact cached. -/
theorem c9_unguarded_lazy_load (art : Model) :
    (runSched art [true, true, false, false] concInit).reads = 1 ∧
    (runSched art [true, true, false, false] concInit).model = some art ∧
    (runSched art [true, true, false, false] concInit).pcA = TPC.done ∧
    (runSched art [true, true, false, false] concInit).pcB = TPC.done ∧
    (runSched art [true, false, true, false] concInit).reads = 2 ∧
    (runSched art [true, false, true, false] concInit).model = some art ∧
    (runSched art [true, false, true, false] concInit).pcA = TPC.done ∧
    (runSched art [true, false, true, false] concInit).pcB = TPC.done :=
  ⟨rfl, rfl, rfl, rfl, rfl, rfl, rfl, rfl⟩

/-- C9, witness: the amended behaviour at the stub pipeline. -/
theorem c9_unguarded_lazy_load_witness :
    (runSched stubModel [true, true, false, false] concInit).reads = 1 ∧
    (runSched stubModel [true, false, true, false] concInit).reads = 2 := by
  have h := c9_unguarded_lazy_load stubModel
  exact ⟨h.1, h.2.2.2.2.1⟩

/-- C10 (confirmed): the three numeric validators reject every falsy input
(`None`, `""`, and also the numbers 0 and 0.0) with their "required"
message and no value, before any parsing; a zero is accepted only when it
arrives as the non-empty string "0". -/
theorem c10_falsy_required (x : PyVal) (hx : pyTruthy x = false) :
    (validate_patient_age x = (false, "Age is required", Option.none) ∧
     validate_avg_glucose_level x = (false, "Average glucose level is required", Option.none) ∧
     validate_bmi x = (false, "BMI is required", Option.none)) ∧
    (pyTruthy (PyVal.int 0) = false ∧ pyTruthy (PyVal.float 0) = false ∧
     pyTruthy PyVal.none = false ∧ pyTruthy (PyVal.str "") = false) ∧
    (strContains "Age is required" "required" = true ∧
     strContains "Average glucose level is required" "required" = true ∧
     strContains "BMI is required" "required" = true) ∧
    (validate_patient_age (PyVal.str "0") = (true, "", some 0) ∧
     validate_avg_glucose_level (PyVal.str "0") = (true, "", some 0) ∧
     validate_bmi (PyVal.str "0") = (true, "", some 0)) := by
  refine ⟨⟨?_, ?_, ?_⟩, by decide, by decide, by decide⟩ <;>
    simp [validate_patient_age, validate_avg_glucose_level, validate_bmi, hx]

/-- C10, witness: the numbers 0 and 0.0 are rejected as "required". -/
theorem c10_falsy_required_witness :
    validate_patient_age (PyVal.int 0) = (false, "Age is required", Option.none) ∧
    validate_avg_glucose_level (PyVal.float 0) =
      (false, "Average glucose level is required", Option.none) ∧
    validate_bmi (PyVal.float 0) = (false, "BMI is required", Option.none) := by
  refine ⟨?_, ?_, ?_⟩
  · exact (c10_falsy_required (PyVal.int 0) (by decide)).1.1
  · exact (c10_falsy_required (PyVal.float 0) (by decide)).1.2.1
  · exact (c10_falsy_required (PyVal.float 0) (by decide)).1.2.2

end Stroke
